import Mathlib

/-!
Shallow embedding of the Rail Madad chatbot webhook (backend/app.py).

The webhook receives Dialogflow turn requests, dispatches on the intent
display name, and each handler reads parameters and prior output contexts,
consults the startup-loaded lookup tables (PNR csv, station csv) and the
sqlite record sink, and returns a fulfillment response.

Modelling conventions:
- JSON dicts of string parameters become association lists; a strict
  Python dict index `d[k]` becomes an `Option` lookup whose `none` models
  the uncaught `KeyError`; `d.get(k, v)` becomes the lookup with default.
- The pandas tables become lists of row structures passed as arguments;
  the `is None` startup-failure checks become an `Option` around the list.
- The sqlite sink becomes an `Option Nat` argument: `some i` is the
  auto-increment id `cursor.lastrowid` of a successful insert, `none`
  models an insert that raises.
- `random.shuffle` becomes an explicit oracle `List Char -> List Char`;
  theorems that speak about every random outcome hypothesise only that
  the oracle returns a permutation of its input.
- Python `str.lower` is modelled on ASCII (`charLower`), which covers all
  keywords and station codes handled by the program.
-/

/-- One Dialogflow output context: a name (carrying the context-type
suffix), a lifespan, and a string parameter map. -/
structure Context where
  name : String
  lifespanCount : Nat
  parameters : List (String × String)
deriving DecidableEq

/-- The `queryResult` part of a Dialogflow webhook request. -/
structure QueryResult where
  intentDisplayName : String
  parameters : List (String × String)
  outputContexts : List Context
  queryText : String
deriving DecidableEq

/-- An inbound webhook request: `queryResult` plus the session path. -/
structure RequestJson where
  queryResult : QueryResult
  session : String
deriving DecidableEq

/-- A webhook response: fulfillment text plus emitted output contexts. -/
structure Response where
  fulfillmentText : String
  outputContexts : List Context
deriving DecidableEq

/-- A row of the station csv: display name and station code. -/
structure StationRow where
  station : String
  id_code : String
deriving DecidableEq

/-- A row of the PNR csv: the 13-character index key and the train number. -/
structure PnrRow where
  key : String
  trainNo : Nat
deriving DecidableEq

/-- A row of the sqlite `complaints` table as inserted by the webhook
(ids and timestamps are assigned by the sink). -/
structure ComplaintRecord where
  phone_number : String
  pnr : String
  token : String
  station : String
  complaint_text : String
  department : String
deriving DecidableEq

/-- Strict dict lookup: Python `params[k]`; `none` models a `KeyError`. -/
def lookupParam (ps : List (String × String)) (k : String) : Option String :=
  (ps.find? (fun p => p.1 == k)).map Prod.snd

/-- Defaulting dict lookup: Python `params.get(k, "")`. -/
def getParamD (ps : List (String × String)) (k : String) : String :=
  (lookupParam ps k).getD ""

/-- A response with only fulfillment text (no contexts emitted). -/
def staticResp (t : String) : Response :=
  { fulfillmentText := t, outputContexts := [] }

/-- The single-quote character, kept out of string literals. -/
def apos : String := String.mk [Char.ofNat 39]

/-- The double-quote character. -/
def quoteChar : Char := Char.ofNat 34

/-- Does the first list start the second one?  Building block of Python
substring membership `needle in haystack`. -/
def firstMatches : List Char → List Char → Bool
  | [], _ => true
  | _ :: _, [] => false
  | a :: as, b :: bs => a == b && firstMatches as bs

/-- Python substring membership on char lists: does `needle` occur
contiguously inside the second list? -/
def holdsSub (needle : List Char) : List Char → Bool
  | [] => firstMatches needle []
  | b :: bs => firstMatches needle (b :: bs) || holdsSub needle bs

/-- Python `needle in haystack` on strings. -/
def strContains (haystack needle : String) : Bool :=
  holdsSub needle.data haystack.data

/-- ASCII model of Python `str.lower` on one character. -/
def charLower (c : Char) : Char :=
  if 65 ≤ c.toNat && c.toNat ≤ 90 then Char.ofNat (c.toNat + 32) else c

/-- ASCII model of Python `str.lower`. -/
def strLower (s : String) : String :=
  String.mk (s.data.map charLower)

/-- Python `s.strip(c)`: remove every leading and trailing occurrence of
the given character. -/
def stripChar (c : Char) (s : String) : String :=
  String.mk (((s.data.dropWhile (fun a => a == c)).reverse.dropWhile (fun a => a == c)).reverse)

/-- Python `s.strip(chr(34))` as used on station input. -/
def stripQuotes (s : String) : String :=
  stripChar quoteChar s

/-- The food/catering keyword list of `categorize_complaint`. -/
def food_keywords : List String :=
  ["food", "overpriced", "overcharged", "irctc", "pantry", "water", "tea", "meal", "catering", "bad food"]

/-- The cleanliness keyword list of `categorize_complaint`. -/
def cleaning_keywords : List String :=
  ["clean", "dirty", "filthy", "hygiene", "washroom", "toilet", "coach", "stink"]

/-- The ticketing keyword list of `categorize_complaint`. -/
def ticket_keywords : List String :=
  ["ticket", "tc", "tte", "ticketless", "no ticket", "collector"]

/-- Python `any(keyword in text for keyword in kws)`. -/
def anyKeyword (kws : List String) (text : String) : Bool :=
  kws.any (fun k => strContains text k)

/-- `categorize_complaint` from backend/app.py: lower-case the text and
test the three keyword lists in order, first match wins, default
"General Operations". -/
def categorize_complaint (complaint_text : String) : String :=
  if anyKeyword food_keywords (strLower complaint_text) then "IRCTC Department"
  else if anyKeyword cleaning_keywords (strLower complaint_text) then "Cleaning Department"
  else if anyKeyword ticket_keywords (strLower complaint_text) then "TICKET COLLECTOR Department"
  else "General Operations"

/-- Fuel-indexed decimal digits of a natural number, most significant
first; fuel bounds the number of divisions by ten. -/
def natReprAux : Nat → Nat → List Char
  | 0, _ => []
  | f + 1, n => if n = 0 then [] else natReprAux f (n / 10) ++ [Char.ofNat (48 + n % 10)]

/-- Decimal rendering of a natural number, as Python `str` produces it. -/
def natRepr (n : Nat) : String :=
  if n = 0 then "0" else String.mk (natReprAux (n + 1) n)

/-- Decimal rendering of an integer, as Python `str` produces it. -/
def intRepr (n : Int) : String :=
  if n < 0 then "-" ++ natRepr n.natAbs else natRepr n.natAbs

/-- The zero character used by `zfill`. -/
def zeroChar : Char := Char.ofNat 48

/-- The minus character. -/
def minusChar : Char := Char.ofNat 45

/-- The plus character. -/
def plusChar : Char := Char.ofNat 43

/-- Python `s.zfill(w)`: left-pad with zeros to width `w`, keeping a
leading sign character in front of the padding. -/
def zfill (w : Nat) (s : String) : String :=
  match s.data with
  | [] => String.mk (List.replicate w zeroChar)
  | c :: rest =>
    if c == minusChar || c == plusChar then
      String.mk (c :: (List.replicate (w - (rest.length + 1)) zeroChar ++ rest))
    else
      String.mk (List.replicate (w - (rest.length + 1)) zeroChar ++ (c :: rest))

/-- Is this character a decimal digit? -/
def isDigitCh (c : Char) : Bool := 48 ≤ c.toNat && c.toNat ≤ 57

/-- Value of a most-significant-first digit list. -/
def digitsVal (l : List Char) : Nat :=
  l.foldl (fun acc c => acc * 10 + (c.toNat - 48)) 0

/-- Apply an optional leading minus sign to a magnitude. -/
def pySign (neg : Bool) (m : Nat) : Int :=
  if neg then -(m : Int) else (m : Int)

/-- Model of Python `int(float(s))` as used by `handle_pnr_verification`
on the `pnr_number` parameter: parse an optional sign, an integer part
and an optional fractional part, and truncate toward zero; `none` models
the `ValueError` that the surrounding `try` turns into the invalid-PNR
reply.  The model covers plain decimal literals; exponent forms,
whitespace, underscores, infinities and values beyond the exact double
range are outside it. -/
def pyIntFloat (s : String) : Option Int :=
  match s.data with
  | [] => none
  | c :: cs =>
    let neg := c == minusChar
    let rest := if c == minusChar || c == plusChar then cs else c :: cs
    let ip := rest.takeWhile isDigitCh
    let after := rest.dropWhile isDigitCh
    match after with
    | [] => if ip.isEmpty then none else some (pySign neg (digitsVal ip))
    | d :: ds =>
      if d.toNat == 46 then
        let fp := ds.takeWhile isDigitCh
        let after2 := ds.dropWhile isDigitCh
        if after2.isEmpty && !(ip.isEmpty && fp.isEmpty) then
          some (pySign neg (digitsVal ip))
        else none
      else none

/-- The lookup key built by `handle_pnr_verification`:
`"PNR" + str(int_value).zfill(10)`. -/
def pnrKeyOf (n : Int) : String :=
  "PNR" ++ zfill 10 (intRepr n)

/-- `handle_query_intent` from backend/app.py: strict read of the
`user_query` parameter (a missing parameter is an uncaught `KeyError`,
modelled by `none`), insert into the `queries` table, reply with the new
id.  A failing insert also raises uncaught, hence the `Option` sink. -/
def handle_query_intent (queryInsertId : Option Nat) (req : RequestJson) : Option Response :=
  match lookupParam req.queryResult.parameters "user_query" with
  | none => none
  | some _ =>
    match queryInsertId with
    | none => none
    | some qid =>
      some (staticResp ("Thank you. Your query has been registered with ID: Q-" ++ natRepr qid ++ "."))

/-- The case-folded copy of a station row, as built at startup into
`station_data_processed`. -/
def processStationRow (r : StationRow) : StationRow :=
  { station := strLower r.station, id_code := strLower r.id_code }

/-- The station input after `.lower().strip(chr(34))`. -/
def stationSearchInput (req : RequestJson) : String :=
  stripQuotes (strLower (getParamD req.queryResult.parameters "station_input"))

/-- The confirmation response of `handle_station_search` on a match:
prompt embedding the original-case display name and an
`awaiting-station-confirmation` context carrying it. -/
def stationFoundResp (session name : String) : Response :=
  { fulfillmentText := "Did you mean " ++ apos ++ name ++ apos ++ "?",
    outputContexts :=
      [{ name := session ++ "/contexts/awaiting-station-confirmation",
         lifespanCount := 1,
         parameters := [("station_confirmed", name)] }] }

/-- The static not-found reply of `handle_station_search`. -/
def stationNotFoundText : String :=
  "Sorry, I couldn" ++ apos ++ "t find that station. Please try the name or code again."

/-- `handle_station_search` from backend/app.py: case-folded,
quote-stripped input matched for equality against the case-folded code or
name columns; the display name of the first matching row is re-read from
the raw table by row index. -/
def handle_station_search (stationRows : Option (List StationRow)) (req : RequestJson) : Response :=
  match stationRows with
  | none => staticResp "Error: Station database is not loaded. Please contact support."
  | some rows =>
    match (rows.map processStationRow).findIdx?
        (fun r => r.id_code == stationSearchInput req || r.station == stationSearchInput req) with
    | some i => stationFoundResp req.session (((rows.get? i).map StationRow.station).getD "")
    | none => staticResp stationNotFoundText

/-- The success response of `handle_station_confirmed`: prompt for the
complaint text and an `awaiting-complaint-description` context carrying
the confirmed station. -/
def stationConfirmedOk (session s : String) : Response :=
  { fulfillmentText :=
      "Great! Complaint at " ++ apos ++ s ++ apos ++ ". Please describe your complaint (e.g., "
        ++ apos ++ "no water" ++ apos ++ ", " ++ apos ++ "dirty platform" ++ apos ++ ").",
    outputContexts :=
      [{ name := session ++ "/contexts/awaiting-complaint-description",
         lifespanCount := 1,
         parameters := [("station_confirmed", s)] }] }

/-- `handle_station_confirmed` from backend/app.py: the loop over the
prior contexts breaks at the first one whose name contains
`awaiting-station-confirmation`; a missing `station_confirmed` key in it
raises a `KeyError` that the surrounding `try` turns into the generic
error reply; no matching context leaves the default "Unknown". -/
def handle_station_confirmed (req : RequestJson) : Response :=
  match req.queryResult.outputContexts.find?
      (fun c => strContains c.name "awaiting-station-confirmation") with
  | none => stationConfirmedOk req.session "Unknown"
  | some c =>
    match lookupParam c.parameters "station_confirmed" with
    | none => staticResp "An error occurred. Please try again."
    | some s => stationConfirmedOk req.session s

/-- The static invalid-PNR reply. -/
def invalidPnrText : String :=
  "That doesn" ++ apos ++ "t seem to be a valid PNR. Please enter a 10-digit PNR."

/-- The success response of `handle_pnr_verification`: train number and
token in the text, `awaiting-complaint-description` context carrying the
token and the key. -/
def pnrFoundResp (session : String) (trainNo : Nat) (key token : String) : Response :=
  { fulfillmentText :=
      "PNR verified for Train " ++ natRepr trainNo ++ ". Your complaint token is "
        ++ token ++ ". Please describe your complaint.",
    outputContexts :=
      [{ name := session ++ "/contexts/awaiting-complaint-description",
         lifespanCount := 1,
         parameters := [("complaint_token", token), ("pnr", key)] }] }

/-- `handle_pnr_verification` from backend/app.py: convert `pnr_number`
via `int(float(.))`, build the key
`"PNR" + zero-pad-10`, look it up in the PNR table, and on a hit shuffle
the key characters into the complaint token. -/
def handle_pnr_verification (pnrRows : Option (List PnrRow))
    (shuffle : List Char → List Char) (req : RequestJson) : Response :=
  match pnrRows with
  | none => staticResp "Error: PNR database is not loaded. Please check server logs."
  | some rows =>
    match pyIntFloat (getParamD req.queryResult.parameters "pnr_number") with
    | none => staticResp invalidPnrText
    | some n =>
      match rows.find? (fun r => r.key == pnrKeyOf n) with
      | some row =>
        pnrFoundResp req.session row.trainNo (pnrKeyOf n) (String.mk (shuffle (pnrKeyOf n).data))
      | none => staticResp "That PNR was not found in our records. Please try again."

/-- The local variables of the context loop of `handle_complaint_logging`. -/
structure ScanAcc where
  pnr : String
  token : String
  station : String
  phone_number : String
deriving DecidableEq

/-- The first `if` of the context loop of `handle_complaint_logging`:
a context whose name contains `awaiting-complaint-description` overwrites
the pnr, token and station variables. -/
def scanStepDesc (acc : ScanAcc) (c : Context) : ScanAcc :=
  if strContains c.name "awaiting-complaint-description" then
    { acc with
      pnr := getParamD c.parameters "pnr",
      token := getParamD c.parameters "complaint_token",
      station := getParamD c.parameters "station_confirmed" }
  else acc

/-- The second `if` of the context loop of `handle_complaint_logging`:
a context whose name contains `awaiting-location` overwrites the phone
number variable. -/
def scanStepLoc (acc : ScanAcc) (c : Context) : ScanAcc :=
  if strContains c.name "awaiting-location" then
    { acc with phone_number := getParamD c.parameters "phone_number" }
  else acc

/-- One iteration of the context loop of `handle_complaint_logging`: the
two `if` tests run independently and there is no `break`, so a later
matching context overwrites the fields taken from an earlier one. -/
def scanStep (acc : ScanAcc) (c : Context) : ScanAcc :=
  scanStepLoc (scanStepDesc acc c) c

/-- The full context loop of `handle_complaint_logging`. -/
def scanContexts (ctxs : List Context) : ScanAcc :=
  ctxs.foldl scanStep { pnr := "", token := "", station := "", phone_number := "" }

/-- `if pnr: station = ""` of `handle_complaint_logging`. -/
def exclStation (acc : ScanAcc) : String :=
  if acc.pnr = "" then acc.station else ""

/-- `if station: pnr = ""` of `handle_complaint_logging`, applied after
the station field has been updated. -/
def exclPnr (acc : ScanAcc) : String :=
  if exclStation acc = "" then acc.pnr else ""

/-- `if station: token = ""` of `handle_complaint_logging`. -/
def exclToken (acc : ScanAcc) : String :=
  if exclStation acc = "" then acc.token else ""

/-- The complaint row that `handle_complaint_logging` inserts for a
request: scanned context fields after the pnr/station mutual-exclusion
step, the raw complaint text, and the classified department. -/
def complaintRecordOf (req : RequestJson) : ComplaintRecord :=
  { phone_number := (scanContexts req.queryResult.outputContexts).phone_number,
    pnr := exclPnr (scanContexts req.queryResult.outputContexts),
    token := exclToken (scanContexts req.queryResult.outputContexts),
    station := exclStation (scanContexts req.queryResult.outputContexts),
    complaint_text := getParamD req.queryResult.parameters "complaint_text",
    department := categorize_complaint (getParamD req.queryResult.parameters "complaint_text") }

/-- The static lodging-error reply of `handle_complaint_logging`. -/
def lodgeErrorText : String :=
  "Sorry, there was an error lodging your complaint. Please try again."

/-- `handle_complaint_logging` from backend/app.py.  Returns the record
written to the sink (`none` when the insert raised and the `except`
branch answered) together with the response; the success response carries
an explicitly empty context list. -/
def handle_complaint_logging (sinkId : Option Nat) (req : RequestJson) :
    Option ComplaintRecord × Response :=
  match sinkId with
  | none => (none, staticResp lodgeErrorText)
  | some cid =>
    (some (complaintRecordOf req),
     { fulfillmentText :=
         "Thank you. Your complaint (ID: C-" ++ natRepr cid
           ++ ") has been successfully routed to the " ++ (complaintRecordOf req).department ++ ".",
       outputContexts := [] })

/-- The `dialogflow_webhook` router from backend/app.py: dispatch on the
exact intent display name; the `provide_phone_number` branch answers a
fixed string inline (the real phone handling lives in the Dialogflow
console, not in this repository).  `none` models an exception escaping
the router. -/
def dialogflow_webhook (stationRows : Option (List StationRow)) (pnrRows : Option (List PnrRow))
    (shuffle : List Char → List Char) (queryInsertId complaintInsertId : Option Nat)
    (req : RequestJson) : Option Response :=
  if req.queryResult.intentDisplayName = "capture_user_query" then
    handle_query_intent queryInsertId req
  else if req.queryResult.intentDisplayName = "provide_phone_number" then
    some (staticResp "Error: Phone handler was called, but should be static.")
  else if req.queryResult.intentDisplayName = "provide_station_name" then
    some (handle_station_search stationRows req)
  else if req.queryResult.intentDisplayName = "user_confirms_station_yes" then
    some (handle_station_confirmed req)
  else if req.queryResult.intentDisplayName = "provide_pnr" then
    some (handle_pnr_verification pnrRows shuffle req)
  else if req.queryResult.intentDisplayName = "capture_complaint_description" then
    some ((handle_complaint_logging complaintInsertId req).2)
  else
    some (staticResp "Error: Unrecognized intent in webhook.")

/-- Modelled from the spec: the digit extraction the spec describes for
`provide_phone_number` ("extracts all decimal digit characters from the
raw text, concatenates them").  The webhook source contains no such
extraction; this definition exists only to compare the spec behaviour
with the code. -/
def spec_digitConcat (s : String) : String :=
  String.mk (s.data.filter Char.isDigit)

/-- A request whose detected intent is `provide_phone_number` and whose
raw query text embeds exactly ten digits. -/
def reqPhone : RequestJson :=
  { queryResult :=
      { intentDisplayName := "provide_phone_number",
        parameters := [],
        outputContexts := [],
        queryText := "My number is 9876543210" },
    session := "projects/p/agent/sessions/s" }

/-- A `capture_user_query` request with the `user_query` parameter absent. -/
def reqMissingParam : RequestJson :=
  { queryResult :=
      { intentDisplayName := "capture_user_query",
        parameters := [("other", "x")],
        outputContexts := [],
        queryText := "my train is late" },
    session := "projects/p/agent/sessions/s" }

/-- A `provide_pnr` request with the fractional input "3.5". -/
def reqPnrFrac : RequestJson :=
  { queryResult :=
      { intentDisplayName := "provide_pnr",
        parameters := [("pnr_number", "3.5")],
        outputContexts := [],
        queryText := "3.5" },
    session := "projects/p/agent/sessions/s" }

/-- A `provide_pnr` request with unparsable input. -/
def reqPnrGarbage : RequestJson :=
  { queryResult :=
      { intentDisplayName := "provide_pnr",
        parameters := [("pnr_number", "abc")],
        outputContexts := [],
        queryText := "abc" },
    session := "projects/p/agent/sessions/s" }

/-- A `provide_pnr` request with a plain ten-digit input. -/
def reqPnrOk : RequestJson :=
  { queryResult :=
      { intentDisplayName := "provide_pnr",
        parameters := [("pnr_number", "1234567890")],
        outputContexts := [],
        queryText := "1234567890" },
    session := "projects/p/agent/sessions/s" }

/-- A PNR table holding the key for integer value 3. -/
def pnrRowsThree : List PnrRow := [{ key := "PNR0000000003", trainNo := 12951 }]

/-- A PNR table holding the key for 1234567890. -/
def pnrRowsMain : List PnrRow := [{ key := "PNR1234567890", trainNo := 12951 }]

/-- A station table with one row, in original case. -/
def stationRowsEx : List StationRow := [{ station := "New Delhi", id_code := "NDLS" }]

/-- A `provide_station_name` request whose input is `NDLS` wrapped in
double quotes. -/
def reqNDLS : RequestJson :=
  { queryResult :=
      { intentDisplayName := "provide_station_name",
        parameters := [("station_input", String.mk [quoteChar] ++ "NDLS" ++ String.mk [quoteChar])],
        outputContexts := [],
        queryText := "NDLS" },
    session := "projects/p/agent/sessions/s" }

/-- First of two duplicate `awaiting-complaint-description` contexts. -/
def ctxDupA : Context :=
  { name := "projects/p/agent/sessions/s/contexts/awaiting-complaint-description",
    lifespanCount := 1,
    parameters := [("pnr", "PNR1111111111"), ("complaint_token", "tokA")] }

/-- Second of two duplicate `awaiting-complaint-description` contexts. -/
def ctxDupB : Context :=
  { name := "projects/p/agent/sessions/s/contexts/awaiting-complaint-description",
    lifespanCount := 1,
    parameters := [("pnr", "PNR2222222222"), ("complaint_token", "tokB")] }

/-- A `capture_complaint_description` request carrying the two duplicate
contexts in order. -/
def reqDupCtx : RequestJson :=
  { queryResult :=
      { intentDisplayName := "capture_complaint_description",
        parameters := [("complaint_text", "train was late")],
        outputContexts := [ctxDupA, ctxDupB],
        queryText := "train was late" },
    session := "projects/p/agent/sessions/s" }

/-- First of two duplicate `awaiting-location` contexts. -/
def ctxLocA : Context :=
  { name := "projects/p/agent/sessions/s/contexts/awaiting-location",
    lifespanCount := 1,
    parameters := [("phone_number", "1111111111")] }

/-- Second of two duplicate `awaiting-location` contexts. -/
def ctxLocB : Context :=
  { name := "projects/p/agent/sessions/s/contexts/awaiting-location",
    lifespanCount := 1,
    parameters := [("phone_number", "2222222222")] }

/-- An `awaiting-station-confirmation` context carrying a station. -/
def ctxConf : Context :=
  { name := "projects/p/agent/sessions/s/contexts/awaiting-station-confirmation",
    lifespanCount := 1,
    parameters := [("station_confirmed", "New Delhi")] }

/-- A second, duplicate `awaiting-station-confirmation` context with a
different station, to be ignored by the first-match read. -/
def ctxConfDup : Context :=
  { name := "projects/p/agent/sessions/s/contexts/awaiting-station-confirmation",
    lifespanCount := 1,
    parameters := [("station_confirmed", "Mumbai CST")] }

/-- A `user_confirms_station_yes` request with duplicate confirmation
contexts. -/
def reqConf : RequestJson :=
  { queryResult :=
      { intentDisplayName := "user_confirms_station_yes",
        parameters := [],
        outputContexts := [ctxConf, ctxConfDup],
        queryText := "yes" },
    session := "projects/p/agent/sessions/s" }

/-- A `capture_complaint_description` request whose contexts carry both a
phone number (from `awaiting-location`) and a pnr (from
`awaiting-complaint-description`). -/
def reqBoth : RequestJson :=
  { queryResult :=
      { intentDisplayName := "capture_complaint_description",
        parameters := [("complaint_text", "no water in coach")],
        outputContexts :=
          [{ name := "projects/p/agent/sessions/s/contexts/awaiting-location",
             lifespanCount := 1,
             parameters := [("phone_number", "9876543210")] },
           { name := "projects/p/agent/sessions/s/contexts/awaiting-complaint-description",
             lifespanCount := 1,
             parameters := [("pnr", "PNR1234567890"), ("complaint_token", "tokX")] }],
        queryText := "no water in coach" },
    session := "projects/p/agent/sessions/s" }

theorem strData_append (a b : String) : (a ++ b).data = a.data ++ b.data := rfl

theorem strExt (a b : String) (h : a.data = b.data) : a = b := by
  cases a; cases b; exact congrArg String.mk (by simpa using h)

theorem strLength_mk (l : List Char) : (String.mk l).length = l.length := rfl

theorem strLength_append (a b : String) : (a ++ b).length = a.length + b.length := by
  show (a.data ++ b.data).length = a.data.length + b.data.length
  exact List.length_append a.data b.data

theorem firstMatches_append (l post : List Char) : firstMatches l (l ++ post) = true := by
  induction l with
  | nil => rfl
  | cons a as ih => simp [firstMatches, ih]

theorem holdsSub_nil (l : List Char) : holdsSub [] l = true := by
  cases l <;> simp [holdsSub, firstMatches]

theorem holdsSub_full (pre mid post : List Char) :
    holdsSub mid (pre ++ (mid ++ post)) = true := by
  induction pre with
  | nil =>
    cases mid with
    | nil => simpa using holdsSub_nil post
    | cons m ms =>
      simp only [List.nil_append, List.cons_append, holdsSub, Bool.or_eq_true]
      exact Or.inl (by simpa using firstMatches_append (m :: ms) post)
  | cons p ps ih =>
    simp only [List.cons_append, holdsSub, Bool.or_eq_true]
    exact Or.inr ih

theorem strContains_middle (a b c : String) : strContains ((a ++ b) ++ c) b = true := by
  show holdsSub b.data ((a ++ b) ++ c).data = true
  have h : ((a ++ b) ++ c).data = a.data ++ (b.data ++ c.data) := by
    simp [strData_append, List.append_assoc]
  rw [h]
  exact holdsSub_full a.data b.data c.data

theorem natReprAux_zero (f : Nat) : natReprAux f 0 = [] := by
  cases f <;> simp [natReprAux]

theorem natReprAux_congr :
    ∀ f g n, n < 10 ^ f → f ≤ g → natReprAux g n = natReprAux f n := by
  intro f
  induction f with
  | zero =>
    intro g n hn _
    have h0 : n = 0 := Nat.lt_one_iff.mp (by simpa using hn)
    subst h0
    rw [natReprAux_zero, natReprAux_zero]
  | succ f ih =>
    intro g n hn hg
    obtain ⟨g', rfl⟩ : ∃ g', g = g' + 1 := ⟨g - 1, by omega⟩
    by_cases h0 : n = 0
    · subst h0
      rw [natReprAux_zero, natReprAux_zero]
    · simp only [natReprAux, h0, if_false]
      have hdiv : n / 10 < 10 ^ f := by
        have := (Nat.div_lt_iff_lt_mul (by norm_num : 0 < 10)).mpr
          (by rw [← pow_succ]; exact hn)
        exact this
      rw [ih g' (n / 10) hdiv (by omega)]

theorem natReprAux_len_le : ∀ f n, n < 10 ^ f → (natReprAux f n).length ≤ f := by
  intro f
  induction f with
  | zero => intro n hn; simp [natReprAux]
  | succ f ih =>
    intro n hn
    by_cases h0 : n = 0
    · simp [natReprAux, h0]
    · simp only [natReprAux, h0, if_false, List.length_append, List.length_cons,
        List.length_nil]
      have hdiv : n / 10 < 10 ^ f := by
        exact (Nat.div_lt_iff_lt_mul (by norm_num : 0 < 10)).mpr (by rw [← pow_succ]; exact hn)
      have := ih (n / 10) hdiv
      omega

theorem natRepr_len_le (n : Nat) (h : n < 10 ^ 10) : (natRepr n).length ≤ 10 := by
  by_cases h0 : n = 0
  · subst h0; decide
  · unfold natRepr
    rw [if_neg h0, strLength_mk]
    rcases le_or_lt (n + 1) 10 with hle | hlt
    · have h1 : n < 10 ^ (n + 1) := by
        calc n < 10 ^ n := Nat.lt_pow_self (by norm_num) n
        _ ≤ 10 ^ (n + 1) := Nat.pow_le_pow_right (by norm_num) (by omega)
      exact le_trans (natReprAux_len_le (n + 1) n h1) hle
    · rw [natReprAux_congr 10 (n + 1) n h (by omega)]
      exact natReprAux_len_le 10 n h

theorem zfill_len (w : Nat) (s : String) (h : s.length ≤ w) : (zfill w s).length = w := by
  have hlen : s.length = s.data.length := rfl
  unfold zfill
  split
  · simp [strLength_mk]
  · rename_i c rest heq
    have hr : rest.length + 1 ≤ w := by
      rw [hlen, heq] at h; simpa using h
    split
    · simp only [strLength_mk, List.length_cons, List.length_append, List.length_replicate]
      omega
    · simp only [strLength_mk, List.length_append, List.length_replicate, List.length_cons]
      omega

theorem pnrKeyOf_natCast (N : Nat) : pnrKeyOf (N : Int) = "PNR" ++ zfill 10 (natRepr N) := by
  unfold pnrKeyOf intRepr
  rw [if_neg (by omega : ¬ (N : Int) < 0)]
  simp [Int.natAbs_ofNat]

theorem pnrKeyOf_len (N : Nat) (h : N < 10 ^ 10) : (pnrKeyOf (N : Int)).length = 13 := by
  rw [pnrKeyOf_natCast, strLength_append, zfill_len 10 _ (natRepr_len_le N h)]
  rfl

theorem excl_cases (acc : ScanAcc) :
    (exclPnr acc = "" ∨ exclStation acc = "") ∧
    (acc.pnr ≠ "" →
      exclStation acc = "" ∧ exclPnr acc = acc.pnr ∧ exclToken acc = acc.token) ∧
    (acc.pnr = "" → acc.station ≠ "" →
      exclPnr acc = "" ∧ exclToken acc = "" ∧ exclStation acc = acc.station) := by
  unfold exclPnr exclToken exclStation
  by_cases hp : acc.pnr = "" <;> by_cases hs : acc.station = "" <;> simp [hp, hs]

/-- Claim C1 (counterexample): the raw query text of the concrete
`provide_phone_number` request concatenates to exactly ten digits, yet the
router answers the fixed error string and emits no `awaiting-location`
context and no location-choice prompt, contrary to the claimed
digit-extraction success path. -/
theorem c1_counterexample :
    (spec_digitConcat reqPhone.queryResult.queryText).length = 10 ∧
    dialogflow_webhook (some []) (some []) (fun l => l) (some 1) (some 1) reqPhone =
      some (staticResp "Error: Phone handler was called, but should be static.") ∧
    (staticResp "Error: Phone handler was called, but should be static.").outputContexts = [] := by
  refine ⟨by decide, by decide, rfl⟩

/-- Claim C1 (amended): for every inbound request whose intent is
`provide_phone_number`, the webhook answers the fixed text "Error: Phone
handler was called, but should be static." and emits no context,
regardless of the query text; no digit extraction happens in the webhook
(the phone turn is handled by a static response in the Dialogflow
console, outside this code). -/
theorem c1_phone_static (stationRows : Option (List StationRow)) (pnrRows : Option (List PnrRow))
    (shuffle : List Char → List Char) (qid cid : Option Nat) (req : RequestJson)
    (hintent : req.queryResult.intentDisplayName = "provide_phone_number") :
    dialogflow_webhook stationRows pnrRows shuffle qid cid req =
      some (staticResp "Error: Phone handler was called, but should be static.") := by
  unfold dialogflow_webhook
  rw [hintent]
  rw [if_neg (by decide), if_pos rfl]

/-- Claim C1 (witness for the amended theorem). -/
theorem c1_phone_static_witness :
    dialogflow_webhook (some stationRowsEx) (some pnrRowsMain) (fun l => l) (some 1) (some 1)
      reqPhone = some (staticResp "Error: Phone handler was called, but should be static.") :=
  c1_phone_static (some stationRowsEx) (some pnrRowsMain) (fun l => l) (some 1) (some 1)
    reqPhone rfl

/-- Claim C2: the complaint classifier is a pure total function that
lower-cases its input and tests the food, cleanliness and ticketing
keyword lists in that order by substring membership, first match winning,
with default "General Operations"; text containing both "dirty" and
"food" classifies as "IRCTC Department". -/
theorem c2_classifier_priority (text : String) :
    (anyKeyword food_keywords (strLower text) = true →
      categorize_complaint text = "IRCTC Department") ∧
    (anyKeyword food_keywords (strLower text) = false →
      anyKeyword cleaning_keywords (strLower text) = true →
      categorize_complaint text = "Cleaning Department") ∧
    (anyKeyword food_keywords (strLower text) = false →
      anyKeyword cleaning_keywords (strLower text) = false →
      anyKeyword ticket_keywords (strLower text) = true →
      categorize_complaint text = "TICKET COLLECTOR Department") ∧
    (anyKeyword food_keywords (strLower text) = false →
      anyKeyword cleaning_keywords (strLower text) = false →
      anyKeyword ticket_keywords (strLower text) = false →
      categorize_complaint text = "General Operations") ∧
    (strContains (strLower text) "dirty" = true →
      strContains (strLower text) "food" = true →
      categorize_complaint text = "IRCTC Department") := by
  refine ⟨?_, ?_, ?_, ?_, ?_⟩
  · intro h; simp [categorize_complaint, h]
  · intro h1 h2; simp [categorize_complaint, h1, h2]
  · intro h1 h2 h3; simp [categorize_complaint, h1, h2, h3]
  · intro h1 h2 h3; simp [categorize_complaint, h1, h2, h3]
  · intro _ h2
    have hf : anyKeyword food_keywords (strLower text) = true := by
      simp only [anyKeyword, food_keywords, List.any_cons, Bool.or_eq_true]
      exact Or.inl h2
    simp [categorize_complaint, hf]

/-- Claim C2 (witness). -/
theorem c2_classifier_priority_witness :
    strContains (strLower "The DIRTY food") "dirty" = true ∧
    strContains (strLower "The DIRTY food") "food" = true ∧
    categorize_complaint "The DIRTY food" = "IRCTC Department" :=
  ⟨by decide, by decide,
   (c2_classifier_priority "The DIRTY food").2.2.2.2 (by decide) (by decide)⟩

/-- Claim C3: every complaint record written by
`capture_complaint_description` has `pnr` and `station` mutually
exclusive, with pnr taking precedence: a non-empty scanned pnr clears the
station; otherwise a non-empty scanned station clears pnr and token. -/
theorem c3_pnr_station_exclusive (cid : Nat) (req : RequestJson) (rec : ComplaintRecord)
    (hrec : (handle_complaint_logging (some cid) req).1 = some rec) :
    (rec.pnr = "" ∨ rec.station = "") ∧
    ((scanContexts req.queryResult.outputContexts).pnr ≠ "" →
      rec.station = "" ∧ rec.pnr = (scanContexts req.queryResult.outputContexts).pnr ∧
        rec.token = (scanContexts req.queryResult.outputContexts).token) ∧
    ((scanContexts req.queryResult.outputContexts).pnr = "" →
      (scanContexts req.queryResult.outputContexts).station ≠ "" →
      rec.pnr = "" ∧ rec.token = "" ∧
        rec.station = (scanContexts req.queryResult.outputContexts).station) := by
  simp only [handle_complaint_logging] at hrec
  obtain rfl : complaintRecordOf req = rec := Option.some.inj hrec
  exact excl_cases (scanContexts req.queryResult.outputContexts)

/-- Claim C3 (witness). -/
theorem c3_pnr_station_exclusive_witness :
    ((complaintRecordOf reqBoth).pnr = "" ∨ (complaintRecordOf reqBoth).station = "") ∧
    ((scanContexts reqBoth.queryResult.outputContexts).pnr ≠ "" →
      (complaintRecordOf reqBoth).station = "" ∧
        (complaintRecordOf reqBoth).pnr = (scanContexts reqBoth.queryResult.outputContexts).pnr ∧
        (complaintRecordOf reqBoth).token =
          (scanContexts reqBoth.queryResult.outputContexts).token) ∧
    ((scanContexts reqBoth.queryResult.outputContexts).pnr = "" →
      (scanContexts reqBoth.queryResult.outputContexts).station ≠ "" →
      (complaintRecordOf reqBoth).pnr = "" ∧ (complaintRecordOf reqBoth).token = "" ∧
        (complaintRecordOf reqBoth).station =
          (scanContexts reqBoth.queryResult.outputContexts).station) :=
  c3_pnr_station_exclusive 1 reqBoth (complaintRecordOf reqBoth) (by decide)

/-- Claim C4 (counterexample): the fractional input "3.5" is not
rejected: `int(float("3.5"))` yields 3, the key `PNR0000000003` is looked
up and found, and the handler answers the verified reply with a context
(a state advance), not the static invalid-PNR message. -/
theorem c4_counterexample_fractional :
    pyIntFloat "3.5" = some 3 ∧
    handle_pnr_verification (some pnrRowsThree) (fun l => l) reqPnrFrac =
      pnrFoundResp "projects/p/agent/sessions/s" 12951 "PNR0000000003" "PNR0000000003" ∧
    (pnrFoundResp "projects/p/agent/sessions/s" 12951 "PNR0000000003"
        "PNR0000000003").outputContexts ≠ [] ∧
    pnrFoundResp "projects/p/agent/sessions/s" 12951 "PNR0000000003" "PNR0000000003" ≠
      staticResp invalidPnrText := by
  refine ⟨by decide, by decide, by decide, by decide⟩

/-- Claim C4 (amended): the lookup key is "PNR" plus the integer value
zero-padded to ten digits, hence exactly 13 characters for every natural
number below ten to the tenth; the `pnr_number` input is converted with
`int(float(.))`, so fractional decimal input is accepted and truncated
toward zero, and only input that does not parse as a decimal number is
rejected with the static invalid-PNR message and no state advance. -/
theorem c4_pnr_key (shuffle : List Char → List Char) :
    (∀ N : Nat, N < 10 ^ 10 →
      pnrKeyOf (N : Int) = "PNR" ++ zfill 10 (natRepr N) ∧ (pnrKeyOf (N : Int)).length = 13) ∧
    pyIntFloat "3.5" = some 3 ∧
    (∀ rows : List PnrRow, ∀ req : RequestJson,
      pyIntFloat (getParamD req.queryResult.parameters "pnr_number") = none →
      handle_pnr_verification (some rows) shuffle req = staticResp invalidPnrText) := by
  refine ⟨?_, by decide, ?_⟩
  · intro N hN
    exact ⟨pnrKeyOf_natCast N, pnrKeyOf_len N hN⟩
  · intro rows req h
    unfold handle_pnr_verification
    simp only [h]

/-- Claim C4 (witness for the amended theorem). -/
theorem c4_pnr_key_witness :
    (pnrKeyOf ((1234567890 : Nat) : Int)).length = 13 ∧
    handle_pnr_verification (some pnrRowsThree) (fun l => l) reqPnrGarbage =
      staticResp invalidPnrText :=
  ⟨((c4_pnr_key (fun l => l)).1 1234567890 (by norm_num)).2,
   (c4_pnr_key (fun l => l)).2.2 pnrRowsThree reqPnrGarbage (by decide)⟩

/-- Claim C6: a `capture_user_query` request without the `user_query`
parameter makes the router raise (the strict dict index in
`handle_query_intent` is outside any try block), modelled by `none`; no
static parameter-missing reply is produced, contradicting the claim. -/
theorem c6_missing_param_raises :
    dialogflow_webhook (some stationRowsEx) (some pnrRowsMain) (fun l => l) (some 1) (some 1)
      reqMissingParam = none := by
  decide

/-- Claim C10: the phone number scanned from an `awaiting-location`
context is untouched by the pnr/station mutual-exclusion step: when the
contexts supply both a non-empty phone number and a non-empty pnr, the
inserted record carries both. -/
theorem c10_phone_preserved (cid : Nat) (req : RequestJson)
    (hp : (scanContexts req.queryResult.outputContexts).pnr ≠ "")
    (hph : (scanContexts req.queryResult.outputContexts).phone_number ≠ "") :
    (handle_complaint_logging (some cid) req).1 = some (complaintRecordOf req) ∧
    (complaintRecordOf req).phone_number =
      (scanContexts req.queryResult.outputContexts).phone_number ∧
    (complaintRecordOf req).pnr = (scanContexts req.queryResult.outputContexts).pnr ∧
    (complaintRecordOf req).phone_number ≠ "" ∧
    (complaintRecordOf req).pnr ≠ "" := by
  have hpnr : (complaintRecordOf req).pnr = (scanContexts req.queryResult.outputContexts).pnr := by
    unfold complaintRecordOf exclPnr exclStation
    simp [hp]
  refine ⟨by simp [handle_complaint_logging], rfl, hpnr, hph, ?_⟩
  rw [hpnr]; exact hp

/-- Claim C5: on every successful PNR verification and for every
permutation outcome of the shuffle, the complaint token is a permutation
(multiset-equal reordering) of the 13-character matched key, and the very
same token string appears in the fulfillment text and in the emitted
`awaiting-complaint-description` context. -/
theorem c5_token_perm (rows : List PnrRow) (shuffle : List Char → List Char)
    (req : RequestJson) (n : Int) (row : PnrRow)
    (hsh : ∀ l : List Char, (shuffle l).Perm l)
    (hn : pyIntFloat (getParamD req.queryResult.parameters "pnr_number") = some n)
    (h0 : 0 ≤ n) (h1 : n < 10 ^ 10)
    (hfind : rows.find? (fun r => r.key == pnrKeyOf n) = some row) :
    (String.mk (shuffle (pnrKeyOf n).data)).data.Perm (pnrKeyOf n).data ∧
    (String.mk (shuffle (pnrKeyOf n).data)).length = 13 ∧
    strContains (handle_pnr_verification (some rows) shuffle req).fulfillmentText
      (String.mk (shuffle (pnrKeyOf n).data)) = true ∧
    (handle_pnr_verification (some rows) shuffle req).outputContexts =
      [{ name := req.session ++ "/contexts/awaiting-complaint-description",
         lifespanCount := 1,
         parameters := [("complaint_token", String.mk (shuffle (pnrKeyOf n).data)),
                        ("pnr", pnrKeyOf n)] }] := by
  have hres : handle_pnr_verification (some rows) shuffle req
      = pnrFoundResp req.session row.trainNo (pnrKeyOf n)
          (String.mk (shuffle (pnrKeyOf n).data)) := by
    unfold handle_pnr_verification
    simp only [hn]
    simp only [hfind]
  have hperm : (shuffle (pnrKeyOf n).data).Perm (pnrKeyOf n).data := hsh _
  have hlen13 : (pnrKeyOf n).length = 13 := by
    obtain ⟨N, rfl⟩ : ∃ N : Nat, n = (N : Int) := ⟨n.toNat, (Int.toNat_of_nonneg h0).symm⟩
    apply pnrKeyOf_len
    exact_mod_cast h1
  refine ⟨hperm, ?_, ?_, ?_⟩
  · rw [strLength_mk, hperm.length_eq]
    exact hlen13
  · rw [hres]
    show strContains
      ("PNR verified for Train " ++ natRepr row.trainNo ++ ". Your complaint token is "
        ++ String.mk (shuffle (pnrKeyOf n).data) ++ ". Please describe your complaint.")
      (String.mk (shuffle (pnrKeyOf n).data)) = true
    exact strContains_middle
      (("PNR verified for Train " ++ natRepr row.trainNo) ++ ". Your complaint token is ")
      (String.mk (shuffle (pnrKeyOf n).data)) ". Please describe your complaint."
  · rw [hres]
    rfl

/-- Claim C5 (witness): the shuffle outcome is instantiated with list
reversal, a permutation. -/
theorem c5_token_perm_witness :
    (String.mk (List.reverse (pnrKeyOf (1234567890 : Int)).data)).data.Perm
      (pnrKeyOf (1234567890 : Int)).data ∧
    (String.mk (List.reverse (pnrKeyOf (1234567890 : Int)).data)).length = 13 ∧
    strContains
      (handle_pnr_verification (some pnrRowsMain) List.reverse reqPnrOk).fulfillmentText
      (String.mk (List.reverse (pnrKeyOf (1234567890 : Int)).data)) = true ∧
    (handle_pnr_verification (some pnrRowsMain) List.reverse reqPnrOk).outputContexts =
      [{ name := reqPnrOk.session ++ "/contexts/awaiting-complaint-description",
         lifespanCount := 1,
         parameters :=
           [("complaint_token", String.mk (List.reverse (pnrKeyOf (1234567890 : Int)).data)),
            ("pnr", pnrKeyOf (1234567890 : Int))] }] :=
  c5_token_perm pnrRowsMain List.reverse reqPnrOk 1234567890
    { key := "PNR1234567890", trainNo := 12951 }
    (fun l => List.reverse_perm l) (by decide) (by decide) (by decide) (by decide)

/-- Claim C7 (counterexample): with two `awaiting-complaint-description`
contexts in the prior-context list, the record is filled from the LAST
matching context (the loop has no break), not from the first match as
claimed: the first match carries pnr PNR1111111111 but the inserted
record carries PNR2222222222. -/
theorem c7_counterexample_last_wins :
    reqDupCtx.queryResult.outputContexts.find?
        (fun c => strContains c.name "awaiting-complaint-description") = some ctxDupA ∧
    getParamD ctxDupA.parameters "pnr" = "PNR1111111111" ∧
    ((handle_complaint_logging (some 1) reqDupCtx).1.map ComplaintRecord.pnr) =
      some "PNR2222222222" ∧
    ((handle_complaint_logging (some 1) reqDupCtx).1.map ComplaintRecord.token) =
      some "tokB" := by
  refine ⟨by decide, by decide, by decide, by decide⟩

/-- Claim C7 (amended): `user_confirms_station_yes` reads the FIRST
context whose name contains `awaiting-station-confirmation` and ignores
later duplicates; `capture_complaint_description` scans without early
exit, so for each of its two context types the LAST matching context in
the list wins. -/
theorem c7_context_scan :
    (∀ req : RequestJson, ∀ c : Context,
      req.queryResult.outputContexts.find?
          (fun x => strContains x.name "awaiting-station-confirmation") = some c →
      handle_station_confirmed req =
        (match lookupParam c.parameters "station_confirmed" with
         | none => staticResp "An error occurred. Please try again."
         | some s => stationConfirmedOk req.session s)) ∧
    (∀ ctxs : List Context, ∀ c : Context,
      strContains c.name "awaiting-complaint-description" = true →
      strContains c.name "awaiting-location" = false →
      scanContexts (ctxs ++ [c]) =
        { pnr := getParamD c.parameters "pnr",
          token := getParamD c.parameters "complaint_token",
          station := getParamD c.parameters "station_confirmed",
          phone_number := (scanContexts ctxs).phone_number }) ∧
    (∀ ctxs : List Context, ∀ c : Context,
      strContains c.name "awaiting-location" = true →
      strContains c.name "awaiting-complaint-description" = false →
      scanContexts (ctxs ++ [c]) =
        { pnr := (scanContexts ctxs).pnr,
          token := (scanContexts ctxs).token,
          station := (scanContexts ctxs).station,
          phone_number := getParamD c.parameters "phone_number" }) := by
  refine ⟨?_, ?_, ?_⟩
  · intro req c h
    unfold handle_station_confirmed
    simp only [h]
  · intro ctxs c h1 h2
    have hstep : scanContexts (ctxs ++ [c]) = scanStep (scanContexts ctxs) c := by
      unfold scanContexts
      rw [List.foldl_append]
      rfl
    rw [hstep]
    unfold scanStep scanStepLoc scanStepDesc
    rw [if_pos h1, if_neg (by simp [h2])]
  · intro ctxs c h1 h2
    have hstep : scanContexts (ctxs ++ [c]) = scanStep (scanContexts ctxs) c := by
      unfold scanContexts
      rw [List.foldl_append]
      rfl
    rw [hstep]
    unfold scanStep scanStepLoc scanStepDesc
    rw [if_neg (show ¬ strContains c.name "awaiting-complaint-description" = true by
      simp [h2])]
    rw [if_pos h1]

/-- Claim C7 (witness for the amended theorem): the station confirmation
uses the first of two duplicate contexts; appending a description context
overwrites the previously scanned pnr and token, and appending a location
context overwrites the previously scanned phone number. -/
theorem c7_context_scan_witness :
    handle_station_confirmed reqConf = stationConfirmedOk reqConf.session "New Delhi" ∧
    scanContexts ([ctxDupA] ++ [ctxDupB]) =
      { pnr := "PNR2222222222", token := "tokB", station := "", phone_number := "" } ∧
    scanContexts ([ctxLocA] ++ [ctxLocB]) =
      { pnr := "", token := "", station := "", phone_number := "2222222222" } := by
  refine ⟨?_, ?_, ?_⟩
  · exact c7_context_scan.1 reqConf ctxConf (by decide)
  · rw [c7_context_scan.2.1 [ctxDupA] ctxDupB (by decide) (by decide)]
    decide
  · rw [c7_context_scan.2.2 [ctxLocA] ctxLocB (by decide) (by decide)]
    decide

/-- Claim C8: station search case-folds and strips surrounding quotes
from the input, matches it for case-insensitive equality against the code
or the display name, and on the first match answers the confirmation
prompt with the original-case display name and emits an
`awaiting-station-confirmation` context carrying that exact name; on no
match it answers the static not-found message and emits no context. -/
theorem c8_station_search (rows : List StationRow) (req : RequestJson) (input : String)
    (hin : input = stationSearchInput req) :
    (∀ i : Nat, ∀ row : StationRow,
      (rows.map processStationRow).findIdx?
          (fun r => r.id_code == input || r.station == input) = some i →
      rows.get? i = some row →
      handle_station_search (some rows) req = stationFoundResp req.session row.station) ∧
    ((rows.map processStationRow).findIdx?
          (fun r => r.id_code == input || r.station == input) = none →
      handle_station_search (some rows) req = staticResp stationNotFoundText) := by
  subst hin
  constructor
  · intro i row hidx hget
    unfold handle_station_search
    simp only [hidx]
    simp only [hget]
    rfl
  · intro hnone
    unfold handle_station_search
    simp only [hnone]

/-- Claim C8 (witness): quoted mixed-case input matching the station code
resolves to the original-case display name. -/
theorem c8_station_search_witness :
    handle_station_search (some stationRowsEx) reqNDLS =
      stationFoundResp reqNDLS.session "New Delhi" :=
  (c8_station_search stationRowsEx reqNDLS "ndls" (by decide)).1 0
    { station := "New Delhi", id_code := "NDLS" } (by decide) (by decide)

/-- Claim C9: every successful complaint-logging turn answers a text that
contains the new record id as `C-<id>` and the classified department
name, and carries an empty output-context list (terminal turn). -/
theorem c9_terminal_response (cid : Nat) (req : RequestJson) :
    strContains (handle_complaint_logging (some cid) req).2.fulfillmentText
      ("C-" ++ natRepr cid) = true ∧
    strContains (handle_complaint_logging (some cid) req).2.fulfillmentText
      (complaintRecordOf req).department = true ∧
    (handle_complaint_logging (some cid) req).2.outputContexts = [] := by
  refine ⟨?_, ?_, rfl⟩
  · show strContains
      ("Thank you. Your complaint (ID: C-" ++ natRepr cid
        ++ ") has been successfully routed to the " ++ (complaintRecordOf req).department ++ ".")
      ("C-" ++ natRepr cid) = true
    have hsplit : ("Thank you. Your complaint (ID: C-" ++ natRepr cid
          ++ ") has been successfully routed to the "
          ++ (complaintRecordOf req).department ++ ".")
        = (("Thank you. Your complaint (ID: " ++ ("C-" ++ natRepr cid))
            ++ ((") has been successfully routed to the "
                  ++ (complaintRecordOf req).department) ++ ".")) := by
      apply strExt
      simp [strData_append, List.append_assoc, List.cons_append, List.nil_append]
    rw [hsplit]
    exact strContains_middle "Thank you. Your complaint (ID: " ("C-" ++ natRepr cid)
      ((") has been successfully routed to the " ++ (complaintRecordOf req).department) ++ ".")
  · show strContains
      ("Thank you. Your complaint (ID: C-" ++ natRepr cid
        ++ ") has been successfully routed to the " ++ (complaintRecordOf req).department ++ ".")
      (complaintRecordOf req).department = true
    exact strContains_middle
      (("Thank you. Your complaint (ID: C-" ++ natRepr cid)
        ++ ") has been successfully routed to the ")
      (complaintRecordOf req).department "."

/-- Claim C10 (witness). -/
theorem c10_phone_preserved_witness :
    (handle_complaint_logging (some 7) reqBoth).1 = some (complaintRecordOf reqBoth) ∧
    (complaintRecordOf reqBoth).phone_number =
      (scanContexts reqBoth.queryResult.outputContexts).phone_number ∧
    (complaintRecordOf reqBoth).pnr = (scanContexts reqBoth.queryResult.outputContexts).pnr ∧
    (complaintRecordOf reqBoth).phone_number ≠ "" ∧
    (complaintRecordOf reqBoth).pnr ≠ "" :=
  c10_phone_preserved 7 reqBoth (by decide) (by decide)
